import Mathlib

/-!
# Search Battle — verification of the search route

Shallow embedding of `src/elastic-search-implementation/src/app/api/search/route.ts`
(the only executable subsystem of the repository): the relational lookup adapter
(Postgres `ILIKE` query with a `count(*) OVER()` window and `LIMIT 10`), the
indexed-search lookup adapter (Elasticsearch `query_string` call with `size: 10`),
the SSE framing of results, and the coordinator that races the two adapters and
streams each outcome.  Backing stores are modelled as in-memory lists; the seed
scripts (`scripts/seed-pg.mjs`, `scripts/seed-es.mjs`) fix the row/document shapes.
-/

namespace SearchBattle

/-- A row of the `reviews` table as created by `scripts/seed-pg.mjs`:
`id SERIAL PRIMARY KEY, external_id INTEGER UNIQUE, review TEXT, sentiment INTEGER`. -/
structure PgRow where
  id : Nat
  external_id : Int
  review : String
  sentiment : Int
deriving Repr, DecidableEq

/-- A row as returned by the route's SQL statement
`SELECT *, count(*) OVER() AS total_count FROM reviews WHERE review ILIKE $1 LIMIT 10`:
all table columns plus the window-count helper column. -/
structure PgResultRow where
  id : Nat
  external_id : Int
  review : String
  sentiment : Int
  total_count : Nat
deriving Repr, DecidableEq

/-- A document of the `reviews` Elasticsearch index as created by
`scripts/seed-es.mjs` (`_source` holds exactly `external_id`, `review`, `sentiment`). -/
structure EsDoc where
  external_id : Int
  review : String
  sentiment : Int
deriving Repr, DecidableEq

/-! ## SQL LIKE pattern semantics

Postgres `ILIKE` lowercases both operands and then applies `LIKE` pattern
matching, in which `%` matches any (possibly empty) character sequence and
`_` matches exactly one character; every other pattern character matches
itself literally. -/

/-- `LIKE` pattern matching on character lists: backslash is the default
escape character and makes the following pattern character match itself
literally (even `%` and `_`); otherwise `%` matches any sequence, `_`
matches a single character, and anything else matches literally.  Postgres
rejects a pattern that ends with the escape character; that case is
modelled as a non-match and is unreachable for the route's patterns, which
always end with an unescaped `%` (see `pgParam`). -/
def likeMatch : List Char → List Char → Bool
  | [], s => s.isEmpty
  | p :: ps, s =>
    if p = '\\' then
      match ps with
      | [] => false
      | e :: ps2 =>
        match s with
        | [] => false
        | c :: s2 => (e == c) && likeMatch ps2 s2
    else if p = '%' then s.tails.any (fun t => likeMatch ps t)
    else
      match s with
      | [] => false
      | c :: s2 => (if p = '_' then true else p == c) && likeMatch ps s2

/-- Lowercased character list of a string (both `ILIKE` operands are lowercased;
also models JavaScript `String.prototype.toLowerCase` on ASCII data). -/
def lowerChars (s : String) : List Char := s.data.map Char.toLower

/-- The single bind value the route passes for `$1`: the template literal
`` `%${query}%` `` (route.ts line 30). -/
def pgParam (query : String) : String := "%" ++ query ++ "%"

/-- `pattern ILIKE`-matches `s`: case-insensitive `LIKE`. -/
def ilikeMatches (pat s : String) : Bool :=
  likeMatch (lowerChars pat) (lowerChars s)

/-- The rows of the store satisfying the route's `WHERE review ILIKE $1`
predicate with the bound parameter `%query%`, in store order. -/
def pgMatchedRows (query : String) (store : List PgRow) : List PgRow :=
  store.filter (fun r => ilikeMatches (pgParam query) r.review)

/-- Result set of the SQL statement
`SELECT *, count(*) OVER() AS total_count FROM reviews WHERE review ILIKE $1 LIMIT 10`
for a given bind value of `$1`: the window function `count(*) OVER()` is
evaluated over the full `WHERE`-filtered set (before `LIMIT`), so every
returned row carries the true match count; `LIMIT 10` then keeps the first
ten rows. -/
def execSelect (param : String) (store : List PgRow) : List PgResultRow :=
  let matched := store.filter (fun r => ilikeMatches param r.review)
  (matched.take 10).map (fun r => ⟨r.id, r.external_id, r.review, r.sentiment, matched.length⟩)

/-- The route's query execution: the statement text is a fixed constant and the
user query reaches it only as the bound value `%query%` for `$1`. -/
def pgQueryRows (query : String) (store : List PgRow) : List PgResultRow :=
  execSelect (pgParam query) store

/-- Payload the relational adapter hands to `sendData`:
`\x7b data, total \x7d` (route.ts lines 33-36). -/
structure PgPayload where
  data : List PgRow
  total : Nat
deriving Repr, DecidableEq

/-- The row cleanup `rows.map((\x7b total_count, ...rest \x7d) => rest)`
(route.ts line 35): drops the helper column, keeps every table column. -/
def stripTotalCount (r : PgResultRow) : PgRow := ⟨r.id, r.external_id, r.review, r.sentiment⟩

/-- The relational adapter `postgresSearch` (route.ts lines 26-37):
runs the parameterized query, reads `total` from the first returned row's
`total_count` (`0` when no rows), strips the helper column. -/
def postgresSearch (query : String) (store : List PgRow) : PgPayload :=
  let rows := pgQueryRows query store
  let total : Nat := match rows with | [] => 0 | r :: _ => r.total_count
  ⟨rows.map stripTotalCount, total⟩

/-! ## Elasticsearch adapter -/

/-- The `query_string` query text the route builds by string interpolation:
`` `*${query.toLowerCase()}*` `` (route.ts line 45). -/
def esQueryString (query : String) : String :=
  "*" ++ (⟨lowerChars query⟩ : String) ++ "*"

/-- Splits a character list at separator characters (chars satisfying `p`),
dropping empty pieces; `acc` holds the current piece reversed. -/
def splitOnAux (p : Char → Bool) : List Char → List Char → List (List Char)
  | [], acc => if acc.isEmpty then [] else [acc.reverse]
  | c :: cs, acc =>
    if p c then (if acc.isEmpty then splitOnAux p cs [] else acc.reverse :: splitOnAux p cs [])
    else splitOnAux p cs (c :: acc)

/-- Lucene wildcard-term matching: `*` matches any sequence, `?` matches one
character, other characters match literally. -/
def wildcardMatch : List Char → List Char → Bool
  | [], s => s.isEmpty
  | p :: ps, s =>
    if p = '*' then s.tails.any (fun t => wildcardMatch ps t)
    else
      match s with
      | [] => false
      | c :: s2 => (if p = '?' then true else p == c) && wildcardMatch ps s2

/-- Modelled from the spec: the search engine itself is an external collaborator
(only the adapter call in route.ts and the index mapping in seed-es.mjs are in
the repository).  The `text` field uses the standard analyzer: a document's
`review` is lowercased and split into alphanumeric tokens. -/
def esTokenize (s : String) : List (List Char) :=
  splitOnAux (fun c => !c.isAlphanum) (lowerChars s) []

/-- Modelled from the spec: semantics of the engine's `query_string` query with
`analyze_wildcard: true` and `default_operator: "OR"` over the `review` field —
the query text is split on whitespace into wildcard subqueries (lowercased by
wildcard analysis), OR-combined: a document matches when some subquery
wildcard-matches some analyzed token of its `review` (spec 4.3: wildcard-wrapped
term matching, i.e. matches documents containing the query as a sub-token,
OR'd across tokens). -/
def esQueryMatches (qs : String) (doc : EsDoc) : Bool :=
  let subs := splitOnAux (fun c => c = ' ') (lowerChars qs) []
  subs.any (fun sub => (esTokenize doc.review).any (fun tok => wildcardMatch sub tok))

/-- Payload the indexed adapter hands to `sendData`: `\x7b data, total \x7d`
(route.ts lines 54-56). -/
structure EsPayload where
  data : List EsDoc
  total : Nat
deriving Repr, DecidableEq

/-- The documents of the index matching the route's `query_string` query,
i.e. the engine's full hit set for `*query.toLowerCase()*`. -/
def esMatchedDocs (query : String) (index : List EsDoc) : List EsDoc :=
  index.filter (fun d => esQueryMatches (esQueryString query) d)

/-- The indexed-search adapter `elasticSearch` (route.ts lines 39-57):
`size: 10` caps the returned hits, `hits.total` reports the full hit count,
`data` maps each hit to its `_source`. -/
def elasticSearch (query : String) (index : List EsDoc) : EsPayload :=
  let matched := esMatchedDocs query index
  ⟨matched.take 10, matched.length⟩

/-! ## Statement-level view of the backend calls

For the read-only / idempotence claims we record which statement each adapter
actually issues, alongside a minimal statement semantics in which reads leave
the store untouched and writes extend it. -/

/-- Statements the relational store can execute: the route's parameterized
`SELECT` (with the bind value for `$1`), or an `INSERT` as issued by the
seeding script. -/
inductive SqlStmt where
  | selectReviews (param : String)
  | insertReview (r : PgRow)
deriving Repr, DecidableEq

/-- Executes a statement against the relational store, returning the result
set and the store afterwards: a `SELECT` reads and leaves the store unchanged,
an `INSERT` appends a row. -/
def execSql : SqlStmt → List PgRow → List PgResultRow × List PgRow
  | .selectReviews param, store => (execSelect param store, store)
  | .insertReview r, store => ([], store ++ [r])

/-- The one statement the route issues per request (route.ts lines 28-31):
the fixed `SELECT` text with bind value `%query%`. -/
def routeSqlStmt (query : String) : SqlStmt := .selectReviews (pgParam query)

/-- Operations against the search index: the route's `query_string` search,
or a document indexing as issued by the seeding script. -/
inductive EsOp where
  | searchReviews (qs : String)
  | indexDoc (d : EsDoc)
deriving Repr, DecidableEq

/-- Executes an operation against the index, returning the full hit set and
the index afterwards: a search reads and leaves the index unchanged, an
indexing call appends a document. -/
def execEs : EsOp → List EsDoc → List EsDoc × List EsDoc
  | .searchReviews qs, ix => (ix.filter (fun d => esQueryMatches qs d), ix)
  | .indexDoc d, ix => ([], ix ++ [d])

/-- The one index operation the route issues per request (route.ts lines
41-52): the `query_string` search for `*query.toLowerCase()*`. -/
def routeEsOp (query : String) : EsOp := .searchReviews (esQueryString query)

/-! ## The coordinator and its stream

`GET` (route.ts lines 17-67) opens a `ReadableStream`, starts both adapter
calls (both promises are created before `Promise.all` awaits either), lets
each adapter enqueue its own SSE frame the moment its backend call returns,
and then either closes the controller (both promises fulfilled) or errors it
(the `catch` around `await Promise.all`, which fires at the first rejection).

The stream behaviour depends only on each adapter's outcome and on which
adapter settles first, so a run is modelled by the two completions in settle
order.  Enqueueing on an errored controller throws inside that adapter's
task and delivers nothing to the caller. -/

/-- Which adapter produced an event (the tag passed to `sendData`). -/
inductive Source where
  | postgres
  | elastic
deriving Repr, DecidableEq

/-- How one adapter's backend call settled: fulfilled with a payload, or
rejected (backend unreachable, malformed response, driver timeout, …). -/
inductive AdapterOutcome (α : Type) where
  | success (a : α)
  | failure
deriving Repr, DecidableEq

/-- What the caller observes on the SSE stream, in order: a data frame from
one adapter, the stream erroring (the controller's `error`), or a normal
close (the controller's `close`). -/
inductive StreamEvent (α : Type) where
  | dataEvent (source : Source) (payload : α)
  | errorSignal
  | closed
deriving Repr, DecidableEq

/-- Coordinator state while the request is in flight: whether the controller
can still accept frames, whether `await Promise.all` has already settled
(rejected), and the events delivered so far. -/
structure CoordState (α : Type) where
  ctrlOpen : Bool
  settled : Bool
  events : List (StreamEvent α)
deriving Repr, DecidableEq

/-- Effect of one adapter settling (route.ts lines 19-22, 36, 56, 62-65):
a fulfilled adapter calls `sendData`, which enqueues its frame iff the
controller is still open (enqueueing on an errored controller throws and
delivers nothing); the first rejection rejects `Promise.all`, whose `catch`
calls `controller.error` — later rejections are absorbed by the
already-settled `Promise.all`. -/
def handleCompletion (st : CoordState α) : Source × AdapterOutcome α → CoordState α
  | (src, .success a) =>
    if st.ctrlOpen then { st with events := st.events ++ [.dataEvent src a] } else st
  | (_, .failure) =>
    if st.settled then st
    else { ctrlOpen := false, settled := true, events := st.events ++ [.errorSignal] }

/-- The full stream of a request whose adapters settle as `first` then
`second`: both completions are processed in settle order; if `Promise.all`
was never rejected, `controller.close()` runs after both fulfil
(route.ts lines 59-61). -/
def runCoordinator (first second : Source × AdapterOutcome α) : List (StreamEvent α) :=
  let st := handleCompletion (handleCompletion ⟨true, false, []⟩ first) second
  if st.settled then st.events else st.events ++ [.closed]

/-- Truthiness of `query` in `if (!query)` (route.ts line 11):
`searchParams.get` yields `null` when `q` is absent; `null` and the empty
string are falsy, every other string (including whitespace-only ones) is
truthy. -/
def jsTruthyQ : Option String → Bool
  | none => false
  | some s => !s.isEmpty

/-- Payload of either adapter, tagged by origin. -/
def RacePayload : Type := PgPayload ⊕ EsPayload

instance : DecidableEq RacePayload := by
  unfold RacePayload
  infer_instance

/-- Which adapter's backend answers first in a given run (delivery order is
race-determined; both calls are started before either is awaited). -/
inductive SettleOrder where
  | pgFirst
  | esFirst
deriving Repr, DecidableEq

/-- The event stream of an accepted request in which both backends answer
successfully from the given stores, for each possible settle order. -/
def searchEvents (query : String) (store : List PgRow) (index : List EsDoc) :
    SettleOrder → List (StreamEvent RacePayload)
  | .pgFirst =>
    runCoordinator (.postgres, .success (.inl (postgresSearch query store)))
      (.elastic, .success (.inr (elasticSearch query index)))
  | .esFirst =>
    runCoordinator (.elastic, .success (.inr (elasticSearch query index)))
      (.postgres, .success (.inl (postgresSearch query store)))

/-- An HTTP response of the route: status, content type, JSON body (the 400
path) and the SSE events of the stream (the 200 path). -/
structure HttpResponse where
  status : Nat
  contentType : String
  jsonBody : Option String
  events : List (StreamEvent RacePayload)

/-- The route handler `GET` (route.ts lines 7-76): a falsy `q` is answered
`400` with a JSON error body before any stream is opened or any adapter is
invoked; otherwise a `200 text/event-stream` response streams the race. -/
def GETsearch (q : Option String) (store : List PgRow) (index : List EsDoc)
    (ord : SettleOrder) : HttpResponse :=
  if jsTruthyQ q then
    ⟨200, "text/event-stream", none, searchEvents (q.getD "") store index ord⟩
  else
    ⟨400, "application/json",
      some "\x7b\"error\":\"Query parameter \\\"q\\\" is required\"\x7d", []⟩

/-! ## SSE framing

`sendData` (route.ts lines 19-22) writes
`` `data: ${JSON.stringify(\x7b source, data, time \x7d)}\n\n` ``.
`JSON.stringify` serializes object properties in insertion order, so the
frame text is reproduced field by field. -/

/-- JSON string-character escaping as performed by `JSON.stringify`. -/
def escJsonChar (c : Char) : String :=
  if c = '"' then "\\\""
  else if c = '\\' then "\\\\"
  else if c = '\n' then "\\n"
  else if c = '\r' then "\\r"
  else if c = '\t' then "\\t"
  else String.singleton c

/-- A JSON string literal. -/
def jsonStr (s : String) : String := "\"" ++ String.join (s.data.map escJsonChar) ++ "\""

/-- Comma-separated concatenation. -/
def joinComma : List String → String
  | [] => ""
  | [x] => x
  | x :: xs => x ++ "," ++ joinComma xs

/-- A JSON array literal. -/
def jsonArr (xs : List String) : String := "[" ++ joinComma xs ++ "]"

/-- Serialization of one relational record as enqueued on the stream: the
spread `(\x7b total_count, ...rest \x7d) => rest` keeps all remaining columns
of `SELECT *` in order, so the `id` primary-key column is included. -/
def pgRecordJson (r : PgRow) : String :=
  "\x7b\"id\":" ++ toString r.id ++ ",\"external_id\":" ++ toString r.external_id ++
    ",\"review\":" ++ jsonStr r.review ++ ",\"sentiment\":" ++ toString r.sentiment ++ "\x7d"

/-- Serialization of one indexed record (`hit._source`): exactly the fields
indexed by the seeding script. -/
def esRecordJson (d : EsDoc) : String :=
  "\x7b\"external_id\":" ++ toString d.external_id ++ ",\"review\":" ++ jsonStr d.review ++
    ",\"sentiment\":" ++ toString d.sentiment ++ "\x7d"

/-- The `data` member of a frame: `\x7b"data":[…],"total":n\x7d`. -/
def payloadJson (dataJson : String) (total : Nat) : String :=
  "\x7b\"data\":" ++ dataJson ++ ",\"total\":" ++ toString total ++ "\x7d"

/-- One full SSE frame as written by `sendData`. -/
def sseFrame (source : String) (dataJson : String) (time : Int) : String :=
  "data: \x7b\"source\":" ++ jsonStr source ++ ",\"data\":" ++ dataJson ++
    ",\"time\":" ++ toString time ++ "\x7d\n\n"

/-- The frame the relational adapter enqueues for a query over a store
(route.ts line 36: `sendData('postgres', \x7b data, total \x7d, …)`). -/
def pgFrame (query : String) (store : List PgRow) (time : Int) : String :=
  sseFrame "postgres"
    (payloadJson (jsonArr ((postgresSearch query store).data.map pgRecordJson))
      (postgresSearch query store).total) time

/-- The frame the indexed adapter enqueues for a query over an index
(route.ts line 56: `sendData('elastic', \x7b data, total \x7d, …)`). -/
def esFrame (query : String) (index : List EsDoc) (time : Int) : String :=
  sseFrame "elastic"
    (payloadJson (jsonArr ((elasticSearch query index).data.map esRecordJson))
      (elasticSearch query index).total) time

/-! ## Elapsed-time measurement -/

/-- JavaScript `Math.round`: round half toward positive infinity. -/
def mathRound (x : ℚ) : Int := ⌊x + 1 / 2⌋

/-- The value passed as `time` to `sendData`: `Math.round(end - start)` in
milliseconds, where `start` and `end` are the `performance.now()` readings
taken immediately before and immediately after the backend call. -/
def elapsedTime (tStart tEnd : ℚ) : Int := mathRound (tEnd - tStart)

/-- The relational adapter with its instrumentation (route.ts lines 26-37):
`start` is read before `pool.query`, `end` right after it resolves; the
payload construction and `sendData` call happen after `end` is taken, so the
reported time covers the backend round-trip only. -/
def postgresSearchTimed (query : String) (store : List PgRow) (tStart tEnd : ℚ) :
    PgPayload × Int :=
  (postgresSearch query store, elapsedTime tStart tEnd)

/-- The indexed adapter with its instrumentation (route.ts lines 39-57):
`start` before `client.search`, `end` right after it resolves, serialization
after `end`. -/
def elasticSearchTimed (query : String) (index : List EsDoc) (tStart tEnd : ℚ) :
    EsPayload × Int :=
  (elasticSearch query index, elapsedTime tStart tEnd)

/-! ## Auxiliary definitions used by the verification -/

/-- Is a stream event a data (outcome) event? -/
def isData : StreamEvent α → Bool
  | .dataEvent _ _ => true
  | _ => false

/-- The character list contains no `LIKE` wildcard (`%`, `_`) and no
occurrence of the `LIKE` escape character (backslash). -/
def noWildcards (l : List Char) : Prop := ∀ c ∈ l, c ≠ '%' ∧ c ≠ '_' ∧ c ≠ '\\'

instance (l : List Char) : Decidable (noWildcards l) := by
  unfold noWildcards
  infer_instance

/-- Written from the claim words (refinement target): the rows a
literal-substring search would return — exactly the records whose `review`
literally contains the query as a case-insensitive substring. -/
def literalSubstringSearch (query : String) (store : List PgRow) : List PgRow :=
  store.filter (fun r => decide (lowerChars query <:+: lowerChars r.review))

/-- Written from the claim words (refinement target): the record shape the
spec claims for every emitted record,
`\x7bexternal_id:int, review:string, sentiment:int\x7d`. -/
def claimRecordJson (externalId : Int) (review : String) (sentiment : Int) : String :=
  "\x7b\"external_id\":" ++ toString externalId ++ ",\"review\":" ++ jsonStr review ++
    ",\"sentiment\":" ++ toString sentiment ++ "\x7d"

/-- Written from the claim words (refinement target): the frame the spec
claims for the relational outcome — source tag `"relational"` and id-less
records. -/
def claimPgFrame (query : String) (store : List PgRow) (time : Int) : String :=
  sseFrame "relational"
    (payloadJson
      (jsonArr ((postgresSearch query store).data.map
        (fun r => claimRecordJson r.external_id r.review r.sentiment)))
      (postgresSearch query store).total) time

/-- Fixture: eleven relational rows whose review contains "good". -/
def c3Store : List PgRow :=
  (List.range 11).map (fun i => ⟨i + 1, (i : Int) + 1, "good stuff", 1⟩)

/-- Fixture: eleven indexed documents whose review contains "good". -/
def c3Index : List EsDoc :=
  (List.range 11).map (fun i => ⟨(i : Int) + 1, "good stuff", 1⟩)

/-- A single-quote character (codepoint 39). -/
def sq : Char := Char.ofNat 39

/-- The metacharacter-laden query from the spec: a quote, OR, quotes and
equals signs — `LIKE`-wildcard free. -/
def injQuery : String := ⟨[sq, ' ', 'O', 'R', ' ', sq, '1', sq, '=', sq, '1']⟩

/-- A review that literally contains `injQuery`. -/
def injReview : String := ⟨'a' :: ' ' :: injQuery.data⟩

/-- Fixture store for the injection-safety witness: one row that literally
contains the metacharacter query and one that does not. -/
def c5Store : List PgRow := [⟨1, 1, "harmless text", 0⟩, ⟨2, 2, injReview, 1⟩]

/-! ## General lemmas -/

/-- The relational payload's record list is the first ten matching rows:
the helper-column attachment and its removal cancel. -/
theorem postgresSearch_data_eq (q : String) (store : List PgRow) :
    (postgresSearch q store).data = (pgMatchedRows q store).take 10 := by
  unfold postgresSearch pgQueryRows execSelect stripTotalCount pgMatchedRows
  dsimp only
  rw [List.map_map]
  exact List.map_id _

/-- The relational payload's reported total is the full match count: every
returned row carries the window count, and an empty result set can only come
from an empty match set. -/
theorem postgresSearch_total_eq (q : String) (store : List PgRow) :
    (postgresSearch q store).total = (pgMatchedRows q store).length := by
  unfold postgresSearch pgQueryRows execSelect pgMatchedRows
  cases store.filter (fun r => ilikeMatches (pgParam q) r.review) with
  | nil => rfl
  | cons a l => rfl

/-- A wildcard- and escape-free `LIKE` pattern matches exactly itself. -/
theorem likeMatch_literal (t : List Char) (h : noWildcards t) :
    ∀ s : List Char, likeMatch t s = true ↔ s = t := by
  induction t with
  | nil =>
    intro s
    simp [likeMatch, List.isEmpty_iff]
  | cons p ps ih =>
    intro s
    have hp := h p (List.mem_cons_self p ps)
    have hps : noWildcards ps := fun c hc => h c (List.mem_cons_of_mem p hc)
    cases s with
    | nil =>
      rw [likeMatch.eq_def]
      simp [hp.1, hp.2.2]
    | cons c s2 =>
      rw [likeMatch.eq_def]
      simp only [if_neg hp.2.2, if_neg hp.1, if_neg hp.2.1]
      rw [Bool.and_eq_true, beq_iff_eq, ih hps s2]
      constructor
      · rintro ⟨h1, h2⟩
        rw [h1, h2]
      · intro he
        injection he with h1 h2
        exact ⟨h1.symm, h2⟩

/-- A wildcard- and escape-free pattern followed by a single `%` matches
exactly the strings it prefixes. -/
theorem likeMatch_literal_pct (t : List Char) (h : noWildcards t) :
    ∀ s : List Char, likeMatch (t ++ ['%']) s = true ↔ t <+: s := by
  induction t with
  | nil =>
    intro s
    have h0 : likeMatch (([] : List Char) ++ ['%']) s
        = s.tails.any (fun u => likeMatch [] u) := rfl
    rw [h0, List.any_eq_true]
    constructor
    · intro _
      exact ⟨s, rfl⟩
    · intro _
      refine ⟨[], ?_, rfl⟩
      rw [List.mem_tails]
      exact ⟨s, by simp⟩
  | cons p ps ih =>
    intro s
    have hp := h p (List.mem_cons_self p ps)
    have hps : noWildcards ps := fun c hc => h c (List.mem_cons_of_mem p hc)
    cases s with
    | nil =>
      have h0 : likeMatch ((p :: ps) ++ ['%']) ([] : List Char) = false := by
        show likeMatch (p :: (ps ++ ['%'])) [] = false
        rw [likeMatch.eq_def]
        simp only [if_neg hp.2.2, if_neg hp.1]
      rw [h0, List.prefix_nil]
      simp
    | cons c s2 =>
      have h0 : likeMatch ((p :: ps) ++ ['%']) (c :: s2)
          = ((if p = '_' then true else p == c) && likeMatch (ps ++ ['%']) s2) := by
        show likeMatch (p :: (ps ++ ['%'])) (c :: s2) = _
        rw [likeMatch.eq_def]
        simp only [if_neg hp.2.2, if_neg hp.1]
      rw [h0, if_neg hp.2.1, Bool.and_eq_true, beq_iff_eq, ih hps s2, List.cons_prefix_cons]

/-- The route's pattern shape `%t%` with a wildcard- and escape-free `t`
matches exactly the strings containing `t` as a contiguous substring. -/
theorem likeMatch_substring (t : List Char) (h : noWildcards t) (s : List Char) :
    likeMatch ('%' :: (t ++ ['%'])) s = true ↔ t <:+: s := by
  have heq : likeMatch ('%' :: (t ++ ['%'])) s
      = s.tails.any (fun u => likeMatch (t ++ ['%']) u) := by
    rw [likeMatch.eq_def]
    simp
  rw [heq, List.any_eq_true]
  constructor
  · rintro ⟨u, hu, hm⟩
    rw [List.mem_tails] at hu
    exact List.infix_iff_prefix_suffix.mpr ⟨u, (likeMatch_literal_pct t h u).mp hm, hu⟩
  · intro hinf
    obtain ⟨u, hpre, hsuf⟩ := List.infix_iff_prefix_suffix.mp hinf
    exact ⟨u, (List.mem_tails u s).mpr hsuf, (likeMatch_literal_pct t h u).mpr hpre⟩

/-- Character data of the bind value `%query%`. -/
theorem pgParam_data (q : String) : (pgParam q).data = '%' :: (q.data ++ ['%']) := by
  cases q with
  | mk l => rfl

/-- Lowercasing the bind value keeps the two `%` delimiters and lowercases
the query between them. -/
theorem lowerChars_pgParam (q : String) :
    lowerChars (pgParam q) = '%' :: (lowerChars q ++ ['%']) := by
  have h : Char.toLower '%' = '%' := by decide
  simp [lowerChars, pgParam_data, h]

/-- For a query free of `LIKE` wildcards and of the escape character, the
route's `ILIKE` predicate is case-insensitive literal substring
containment. -/
theorem ilikeMatches_literal (q s : String) (h : noWildcards (lowerChars q)) :
    ilikeMatches (pgParam q) s = true ↔ lowerChars q <:+: lowerChars s := by
  unfold ilikeMatches
  rw [lowerChars_pgParam]
  exact likeMatch_substring (lowerChars q) h (lowerChars s)

-- Escape-character sanity checks: the query a\b yields the pattern %a\b%,
-- in which \b is an escaped literal b, so it matches text containing "ab"
-- and not text containing the literal characters a backslash b; the query \
-- yields %\%, whose \% is an escaped literal %, matching text ending in %.
example : ilikeMatches (pgParam ⟨['a', '\\', 'b']⟩) "xaby" = true := by decide

example : ilikeMatches (pgParam ⟨['a', '\\', 'b']⟩) ⟨['a', '\\', 'b']⟩ = false := by decide

example : ilikeMatches (pgParam "\\") "50%" = true := by decide

example : ilikeMatches (pgParam "\\") "5\\0" = false := by decide

/-! ## Claim theorems -/

/-- C1: independence fails in the reference code — when one backend rejects
before the other resolves, the `catch` around `Promise.all` errors the whole
stream: the other backend's successful outcome is never delivered (its
enqueue lands on an errored controller), no data event at all reaches the
caller, and no source-tagged error event exists in the protocol.  This
evaluates the coordinator at the failing input. -/
theorem c1_failure_denies_other_outcome (α : Type) (o : α) :
    runCoordinator (.elastic, .failure) (.postgres, .success o) = [.errorSignal] ∧
    ∀ e ∈ runCoordinator (α := α) (.elastic, .failure) (.postgres, .success o),
      ∀ src p, e ≠ StreamEvent.dataEvent src p := by
  refine ⟨rfl, ?_⟩
  intro e he src p
  have h0 : runCoordinator (α := α) (.elastic, .failure) (.postgres, .success o)
      = [.errorSignal] := rfl
  rw [h0] at he
  have he' : e = StreamEvent.errorSignal := by simpa using he
  subst he'
  exact fun hcontra => StreamEvent.noConfusion hcontra

/-- C2: concurrent non-blocking race — both adapter calls are dispatched
before either is awaited, and whichever settles first has its outcome
forwarded immediately: in both settle orders the first completer's data event
is the first stream event, the second completer's follows, and the close
comes strictly after both; in particular with a delayed indexed adapter the
relational outcome arrives strictly before the stream closes. -/
theorem c2_nonblocking_race (q : String) (store : List PgRow) (ix : List EsDoc) :
    searchEvents q store ix .pgFirst =
      [.dataEvent .postgres (.inl (postgresSearch q store)),
        .dataEvent .elastic (.inr (elasticSearch q ix)), .closed] ∧
    searchEvents q store ix .esFirst =
      [.dataEvent .elastic (.inr (elasticSearch q ix)),
        .dataEvent .postgres (.inl (postgresSearch q store)), .closed] :=
  ⟨rfl, rfl⟩

/-- C3: page cap with true total, per backend independently — each adapter
always reports the full match count of its own backend (the relational total
comes from the window count computed in the same scan as the page), and
whenever more than ten records match in one backend, that adapter — with no
condition on the other backend — returns exactly ten records. -/
theorem c3_page_cap (q : String) (store : List PgRow) (ix : List EsDoc) :
    (postgresSearch q store).total = (pgMatchedRows q store).length ∧
    (elasticSearch q ix).total = (esMatchedDocs q ix).length ∧
    (10 < (pgMatchedRows q store).length → (postgresSearch q store).data.length = 10) ∧
    (10 < (esMatchedDocs q ix).length → (elasticSearch q ix).data.length = 10) := by
  refine ⟨postgresSearch_total_eq q store, rfl, ?_, ?_⟩
  · intro hpg
    rw [postgresSearch_data_eq, List.length_take]
    omega
  · intro hes
    show ((esMatchedDocs q ix).take 10).length = 10
    rw [List.length_take]
    omega

/-- Witness for C3 on a concrete corpus of eleven matching rows/documents. -/
theorem c3_page_cap_witness :
    10 < (pgMatchedRows "good" c3Store).length ∧
    10 < (esMatchedDocs "good" c3Index).length ∧
    (postgresSearch "good" c3Store).total = (pgMatchedRows "good" c3Store).length ∧
    (elasticSearch "good" c3Index).total = (esMatchedDocs "good" c3Index).length ∧
    (postgresSearch "good" c3Store).data.length = 10 ∧
    (elasticSearch "good" c3Index).data.length = 10 :=
  ⟨by decide, by decide,
    (c3_page_cap "good" c3Store c3Index).1,
    (c3_page_cap "good" c3Store c3Index).2.1,
    (c3_page_cap "good" c3Store c3Index).2.2.1 (by decide),
    (c3_page_cap "good" c3Store c3Index).2.2.2 (by decide)⟩

/-- C4 counterexample: a whitespace-only query is truthy in JavaScript, so
`GET /search?q=%20` is not rejected — the route answers `200`, opens the
stream and runs both adapters, contradicting the claim that every
query that is empty after trimming yields `400` with no adapter invoked. -/
theorem c4_whitespace_not_rejected :
    (GETsearch (some " ") [] [] SettleOrder.pgFirst).status = 200 ∧
    (GETsearch (some " ") [] [] SettleOrder.pgFirst).events ≠ [] := by
  constructor
  · rfl
  · decide

/-- C4 (amended): an absent or empty (no trimming) query is rejected with
`400` and a JSON error body, no stream event is emitted, and the response is
computed without consulting either backing store; a whitespace-only query is
not rejected. -/
theorem c4_empty_query_rejected (store : List PgRow) (ix : List EsDoc) (ord : SettleOrder) :
    (GETsearch none store ix ord).status = 400 ∧
    (GETsearch none store ix ord).jsonBody =
      some "\x7b\"error\":\"Query parameter \\\"q\\\" is required\"\x7d" ∧
    (GETsearch none store ix ord).events = [] ∧
    GETsearch none store ix ord = GETsearch none [] [] ord ∧
    (GETsearch (some "") store ix ord).status = 400 ∧
    (GETsearch (some "") store ix ord).events = [] ∧
    GETsearch (some "") store ix ord = GETsearch (some "") [] [] ord :=
  ⟨rfl, rfl, rfl, rfl, rfl, rfl, rfl⟩

/-- C5 counterexample: the query is not treated as a literal substring by
both backends.  Relationally, the bound value `%query%` still interprets
`LIKE` wildcards inside the query: the query `"%"` matches a row whose text
does not contain `"%"` (i.e. returns the full table).  On the indexed side
the interpolated `query_string` splits on whitespace with `OR`: the query
`"a b"` matches a document that does not contain the substring `"a b"`. -/
theorem c5_metacharacters_not_literal :
    pgMatchedRows "%" [⟨1, 1, "hello", 0⟩] = [⟨1, 1, "hello", 0⟩] ∧
    ¬ lowerChars "%" <:+: lowerChars "hello" ∧
    esQueryMatches (esQueryString "a b") ⟨1, "only b here", 0⟩ = true ∧
    ¬ lowerChars "a b" <:+: lowerChars "only b here" := by
  refine ⟨by decide, by decide, by decide, by decide⟩

/-- C5 (amended): the relational free-text query is passed as a bound value,
so for every query containing no `LIKE` wildcard (`%`/`_`) and no `LIKE`
escape character (backslash) — e.g. the quote metacharacters of
`' OR '1'='1` — the relational adapter matches exactly the records literally
containing the query, case-insensitively; wildcard and escape characters
inside the query are still interpreted by `LIKE` (query `%` matches every
row; a backslash escapes the following character), and the indexed adapter
interpolates the query into `query_string` syntax where whitespace and
wildcards are interpreted rather than literal. -/
theorem c5_wildcard_free_query_literal (q : String) (store : List PgRow)
    (h : noWildcards (lowerChars q)) :
    pgMatchedRows q store = literalSubstringSearch q store := by
  unfold pgMatchedRows literalSubstringSearch
  refine List.filter_congr ?_
  intro r _
  rw [Bool.eq_iff_iff, decide_eq_true_eq]
  exact ilikeMatches_literal q r.review h

/-- Witness for C5 with the spec's own metacharacter query over a concrete
store. -/
theorem c5_wildcard_free_query_literal_witness :
    noWildcards (lowerChars injQuery) ∧
    pgMatchedRows injQuery c5Store = literalSubstringSearch injQuery c5Store :=
  ⟨by decide, c5_wildcard_free_query_literal injQuery c5Store (by decide)⟩

/-- C6 counterexample: on a concrete store and query the relational frame is
tagged `"postgres"` (not `"relational"`) and its record carries the `id`
primary-key column, so it differs from the frame the claim prescribes. -/
theorem c6_frame_differs_from_claim :
    pgFrame "good" [⟨1, 5, "good", 1⟩] 0 =
      "data: \x7b\"source\":\"postgres\",\"data\":\x7b\"data\":[\x7b\"id\":1,\"external_id\":5,\"review\":\"good\",\"sentiment\":1\x7d],\"total\":1\x7d,\"time\":0\x7d\n\n" ∧
    claimPgFrame "good" [⟨1, 5, "good", 1⟩] 0 ≠ pgFrame "good" [⟨1, 5, "good", 1⟩] 0 := by
  refine ⟨by decide, by decide⟩

/-- C6 (amended): every event written to the stream is a single block
`data: \x7b"source":…,"data":\x7b"data":[…],"total":…\x7d,"time":…\x7d\n\n`,
where the source tag is `"postgres"` for the relational outcome and
`"elastic"` for the indexed outcome; each indexed record serializes as
`\x7bexternal_id, review, sentiment\x7d` while each relational record
additionally carries the `id` primary-key column. -/
theorem c6_frame_shape (q : String) (store : List PgRow) (ix : List EsDoc)
    (t1 t2 : Int) (r : PgRow) (d : EsDoc) :
    pgFrame q store t1 =
      "data: \x7b\"source\":\"postgres\",\"data\":" ++
        payloadJson (jsonArr ((postgresSearch q store).data.map pgRecordJson))
          (postgresSearch q store).total ++
        ",\"time\":" ++ toString t1 ++ "\x7d\n\n" ∧
    esFrame q ix t2 =
      "data: \x7b\"source\":\"elastic\",\"data\":" ++
        payloadJson (jsonArr ((elasticSearch q ix).data.map esRecordJson))
          (elasticSearch q ix).total ++
        ",\"time\":" ++ toString t2 ++ "\x7d\n\n" ∧
    pgRecordJson r =
      "\x7b\"id\":" ++ toString r.id ++ ",\"external_id\":" ++ toString r.external_id ++
        ",\"review\":" ++ jsonStr r.review ++ ",\"sentiment\":" ++ toString r.sentiment ++
        "\x7d" ∧
    esRecordJson d = claimRecordJson d.external_id d.review d.sentiment :=
  ⟨rfl, rfl, rfl, rfl⟩

/-- C7: termination discipline fails on backend failure — at most two data
events are ever emitted (universally), but the stream does not always stay
open until both adapters have reported: at the first rejection the controller
is errored immediately (while the other outcome is still pending), the final
trace carries no data event of the still-running adapter and never reaches a
normal close.  This evaluates the coordinator at the failing input. -/
theorem c7_close_not_awaiting_both (α : Type) (o : α) :
    (∀ first second : Source × AdapterOutcome α,
      (runCoordinator first second).countP (fun e => isData e) ≤ 2) ∧
    (handleCompletion ⟨true, false, []⟩
      ((Source.postgres, AdapterOutcome.failure) : Source × AdapterOutcome α)).ctrlOpen
        = false ∧
    runCoordinator (.postgres, .failure) (.elastic, .success o) = [.errorSignal] ∧
    StreamEvent.closed ∉ runCoordinator (α := α) (.postgres, .failure) (.elastic, .success o) := by
  refine ⟨?_, rfl, rfl, ?_⟩
  · rintro ⟨s1, o1⟩ ⟨s2, o2⟩
    cases o1 <;> cases o2 <;>
      simp [runCoordinator, handleCompletion, isData, List.countP_cons, List.countP_nil]
  · intro hmem
    have h0 : runCoordinator (α := α) (.postgres, .failure) (.elastic, .success o)
        = [.errorSignal] := rfl
    rw [h0, List.mem_singleton] at hmem
    exact StreamEvent.noConfusion hmem

/-- C8: elapsed-time measurement — the value passed to the transport is
`Math.round(end - start)` of the `performance.now()` readings bracketing the
backend call only (serialization happens after the second reading), and with
a monotonic clock it is a nonnegative integer of milliseconds. -/
theorem c8_elapsed_nonnegative (q : String) (store : List PgRow) (ix : List EsDoc)
    (t1 t2 t3 t4 : ℚ) (h1 : t1 ≤ t2) (h2 : t3 ≤ t4) :
    (postgresSearchTimed q store t1 t2).2 = elapsedTime t1 t2 ∧
    0 ≤ (postgresSearchTimed q store t1 t2).2 ∧
    (elasticSearchTimed q ix t3 t4).2 = elapsedTime t3 t4 ∧
    0 ≤ (elasticSearchTimed q ix t3 t4).2 := by
  refine ⟨rfl, ?_, rfl, ?_⟩
  · show (0 : ℤ) ≤ mathRound (t2 - t1)
    refine Int.le_floor.mpr ?_
    push_cast
    linarith
  · show (0 : ℤ) ≤ mathRound (t4 - t3)
    refine Int.le_floor.mpr ?_
    push_cast
    linarith

/-- Witness for C8 at concrete clock readings. -/
theorem c8_elapsed_nonnegative_witness :
    ((0 : ℚ) ≤ 3 / 2) ∧ ((1 : ℚ) ≤ 2) ∧
    ((postgresSearchTimed "a" [] 0 (3 / 2)).2 = elapsedTime 0 (3 / 2) ∧
      0 ≤ (postgresSearchTimed "a" [] 0 (3 / 2)).2 ∧
      (elasticSearchTimed "a" [] 1 2).2 = elapsedTime 1 2 ∧
      0 ≤ (elasticSearchTimed "a" [] 1 2).2) :=
  ⟨by norm_num, by norm_num,
    c8_elapsed_nonnegative "a" [] [] 0 (3 / 2) 1 2 (by norm_num) (by norm_num)⟩

/-- C9: read-only idempotence — the only statement the route issues against
either backend is a read (`SELECT` / `search`), which leaves the store
untouched, and a repeated identical query over the store left by the first
run yields the identical payload (hence the same `totalMatched`). -/
theorem c9_read_only_idempotent (q : String) (store : List PgRow) (ix : List EsDoc) :
    (execSql (routeSqlStmt q) store).2 = store ∧
    (execEs (routeEsOp q) ix).2 = ix ∧
    postgresSearch q (execSql (routeSqlStmt q) store).2 = postgresSearch q store ∧
    elasticSearch q (execEs (routeEsOp q) ix).2 = elasticSearch q ix :=
  ⟨rfl, rfl, rfl, rfl⟩

/-- C10: outcome consistency — each emitted payload satisfies
`records.length ≤ totalMatched`; the relational total is `0` exactly when the
returned page is empty (it is read off the window count of the first returned
row); and the helper column `total_count` is stripped from every record
before serialization (the payload rows are the stripped query rows, whose
type carries no `total_count` field). -/
theorem c10_outcome_consistency (q : String) (store : List PgRow) (ix : List EsDoc) :
    (postgresSearch q store).data.length ≤ (postgresSearch q store).total ∧
    ((postgresSearch q store).total = 0 ↔ (postgresSearch q store).data = []) ∧
    (postgresSearch q store).data = (pgQueryRows q store).map stripTotalCount ∧
    (elasticSearch q ix).data.length ≤ (elasticSearch q ix).total := by
  have hd := postgresSearch_data_eq q store
  have ht := postgresSearch_total_eq q store
  refine ⟨?_, ?_, rfl, ?_⟩
  · rw [hd, ht, List.length_take]
    omega
  · rw [hd, ht]
    constructor
    · intro h0
      rw [List.length_eq_zero.mp h0]
      rfl
    · intro h0
      rcases List.take_eq_nil_iff.mp h0 with h | h
      · exact absurd h (by decide)
      · rw [h]
        rfl
  · show ((esMatchedDocs q ix).take 10).length ≤ (esMatchedDocs q ix).length
    rw [List.length_take]
    omega

end SearchBattle
